import Mathlib

/-!
Shallow embedding of `main.py` of the npa-monitor-bot repository: a single-run
script that fetches regulator pages, extracts candidate items, deduplicates
them against a persisted seen set, filters them through an external classifier,
and posts the survivors to a chat API.

The embedding is faithful to the source:
* pure Python functions (`item_key`, `mark_seen`, `is_seen`, `build_message`,
  `is_probably_navigation`, the body of `gigachat_filter`, the retry loop of
  `robust_fetch_text`, the orchestration of `run_once`) become Lean functions;
* Python dicts (the persisted state, the by-regulator grouping) become
  insertion-ordered association lists, matching dict iteration order;
* the external world (HTTP responses, the classifier, the chat API) is passed
  in as explicit functions: one HTTP attempt becomes one `FetchResp`, the
  per-item classifier call becomes `Item → GCResp`, and `tg_send` success
  becomes a predicate on the posted text;
* exceptions become `Except`; `asyncio.gather` over the source list is modelled
  as in-order sequential processing (a valid cooperative schedule; the shared
  accumulators are only appended to, once per source).
-/

namespace NpaBot

/-- Constant `MAX_ITEMS_PER_REGULATOR` from `main.py`. -/
def MAX_ITEMS_PER_REGULATOR : Nat := 15

/-- Constant `MAX_TOTAL_ITEMS` from `main.py`. -/
def MAX_TOTAL_ITEMS : Nat := 60

/-- The `Item` dataclass from `main.py`. -/
structure Item where
  regulator : String
  title : String
  url : String
  published : Option String := none
  source_url : Option String := none
deriving DecidableEq

/-- Ordered association-list lookup, the model of Python `d[k]` / `d.get(k)`
on a dict represented as its insertion-ordered entry list. -/
def lookupA {β : Type} (k : String) : List (String × β) → Option β
  | [] => none
  | (k2, v) :: rest => if k2 = k then some v else lookupA k rest

/-- Model of Python `d[k] = v`: overwrite the value in place when the key is
present, otherwise append the new entry at the end (dict insertion order). -/
def setAssoc {β : Type} (k : String) (v : β) : List (String × β) → List (String × β)
  | [] => [(k, v)]
  | (k2, v2) :: rest => if k2 = k then (k, v) :: rest else (k2, v2) :: setAssoc k v rest

/-- Model of `by_reg.setdefault(k, []).append(x)`: append `x` to the list held
at key `k`, creating the key at the end of the dict if absent. -/
def appendAssoc {β : Type} (k : String) (x : β) : List (String × List β) → List (String × List β)
  | [] => [(k, [x])]
  | (k2, xs) :: rest => if k2 = k then (k2, xs ++ [x]) :: rest else (k2, xs) :: appendAssoc k x rest

/-- The persisted `state.json` object: `seen` maps a regulator name to a dict
from item key (the URL) to its first-seen timestamp. -/
structure StateJson where
  seen : List (String × List (String × String))
deriving DecidableEq

/-- Function `item_key` from `main.py`: the dedup key of an item is its URL. -/
def item_key (it : Item) : String := it.url

/-- Function `load_state` from `main.py`: a missing or non-dict state file
yields a fresh state with an empty `seen` dict. -/
def load_state : Option StateJson → StateJson
  | none => ⟨[]⟩
  | some st => st

/-- Function `mark_seen` from `main.py`:
`state.seen.setdefault(reg, dict())` followed by
`state.seen[reg][item_key(it)] = record-with-ts`. -/
def mark_seen (ts : String) (st : StateJson) (it : Item) : StateJson :=
  let inner := (lookupA it.regulator st.seen).getD []
  ⟨setAssoc it.regulator (setAssoc (item_key it) ts inner) st.seen⟩

/-- Function `is_seen` from `main.py`:
`item_key(it) in state.get("seen", dict()).get(reg, dict())`. -/
def is_seen (st : StateJson) (it : Item) : Bool :=
  (lookupA (item_key it) ((lookupA it.regulator st.seen).getD [])).isSome

/-- Lower-casing as Python `str.lower` behaves on the alphabets these sources
use: ASCII plus the Cyrillic block А..Я and Ё. (`Char.toLower` alone only
handles ASCII.) -/
def pyLowerChar (c : Char) : Char :=
  if 0x410 ≤ c.toNat ∧ c.toNat ≤ 0x42F then Char.ofNat (c.toNat + 0x20)
  else if c.toNat = 0x401 then Char.ofNat 0x451
  else c.toLower

/-- String lower-casing, applied character-wise. -/
def pyLower (s : String) : String := ⟨s.data.map pyLowerChar⟩

/-- Does the second character list start the first one? -/
def startsWithL : List Char → List Char → Bool
  | _, [] => true
  | [], _ :: _ => false
  | c :: cs, n :: ns => c = n && startsWithL cs ns

/-- Does the needle occur anywhere in the haystack? -/
def hasSubL (needle : List Char) : List Char → Bool
  | [] => startsWithL [] needle
  | c :: rest => startsWithL (c :: rest) needle || hasSubL needle rest

/-- Python substring test `needle in hay`. -/
def str_has (hay needle : String) : Bool := hasSubL needle.data hay.data

/-- Whitespace as Python `str.strip` removes it (the ASCII cases). -/
def isPySpace (c : Char) : Bool :=
  c = ' ' || c = '\t' || c = '\n' || c = '\x0d' || c = '\x0b' || c = '\x0c'

/-- Python `s.strip()`: drop whitespace from both ends. -/
def pyStrip (s : String) : String :=
  ⟨((s.data.dropWhile isPySpace).reverse.dropWhile isPySpace).reverse⟩

/-- The `bad_words` deny list from `is_probably_navigation` in `main.py`. -/
def bad_words : List String :=
  ["контак", "карта сайта", "sitemap", "ваканс", "пресс-центр", "press",
   "новости", "news", "обратиться", "о сайте", "en", "eng", "тел", "rutube",
   "vk.com", "ok.ru", "t.me/"]

/-- Function `is_probably_navigation` from `main.py`: a title containing a
deny-listed word (case-insensitively), or a `tel:` URL, is navigation. -/
def is_probably_navigation (title url : String) : Bool :=
  let t := pyLower title
  bad_words.any (fun w => str_has t w) || startsWithL url.data "tel:".data

/-- One rendered item line of a notification message:
`f"{i}) {it.title} — {it.url}"` with 1-based `i` (the argument here is the
0-based position). -/
def item_line (i : Nat) (it : Item) : String :=
  toString (i + 1) ++ ") " ++ it.title ++ " — " ++ it.url

/-- The list `lines` built by `build_message` in `main.py`: a five-line header
(the fifth line is empty) followed by one line per item. `nowStr` stands for
the `now_msk_str()` call. -/
def message_lines (nowStr regulator : String) (items : List Item) : List String :=
  ["Мониторинг НПА (ИБ)",
   "Регулятор: " ++ regulator,
   "Дата: " ++ nowStr,
   "Новые публикации: " ++ toString items.length,
   ""]
  ++ items.enum.map (fun p => item_line p.1 p.2)

/-- Python `"\n".join(lines)`. -/
def joinLines : List String → String
  | [] => ""
  | [l] => l
  | l :: l2 :: rest => l ++ "\n" ++ joinLines (l2 :: rest)

/-- Function `build_message` from `main.py`: join the lines with newlines into
one message text. -/
def build_message (nowStr regulator : String) (items : List Item) : String :=
  joinLines (message_lines nowStr regulator items)

/-- JSON-ish values appearing in a classifier response dict. -/
inductive JVal where
  | jbool : Bool → JVal
  | jint : Int → JVal
  | jstr : String → JVal
  | jnull : JVal
deriving DecidableEq

/-- A classifier response that parsed to a JSON dict: the fields
`gigachat_filter` reads, each possibly absent. -/
structure GCDict where
  relevant : Option JVal := none
  score : Option JVal := none
deriving DecidableEq

/-- Outcome of one per-item classifier call as observed inside the per-item
`try` block of `gigachat_filter`: `fail` is any exception there (network
error, unreachable endpoint, non-JSON body), `nonDict` is a JSON body that is
not an object, `dict` is a parsed JSON object. -/
inductive GCResp where
  | fail : GCResp
  | nonDict : GCResp
  | dict : GCDict → GCResp
deriving DecidableEq

/-- Value of an ASCII digit character. -/
def digitVal (c : Char) : Option Nat :=
  if 48 ≤ c.toNat ∧ c.toNat ≤ 57 then some (c.toNat - 48) else none

/-- Accumulate a decimal digit sequence; fails on a non-digit. -/
def digitsValGo (acc : Nat) : List Char → Option Nat
  | [] => some acc
  | c :: rest =>
    match digitVal c with
    | some d => digitsValGo (acc * 10 + d) rest
    | none => none

/-- Python `int(s)` on a string: optional surrounding whitespace, optional
sign, then a nonempty decimal digit run; anything else raises `ValueError`. -/
def pyIntOfString (s : String) : Option Int :=
  match (pyStrip s).data with
  | [] => none
  | c :: rest =>
    if c = '-' then
      match rest with
      | [] => none
      | _ => (digitsValGo 0 rest).map (fun n => -(n : Int))
    else if c = '+' then
      match rest with
      | [] => none
      | _ => (digitsValGo 0 rest).map (fun n => (n : Int))
    else (digitsValGo 0 (c :: rest)).map (fun n => (n : Int))

/-- Python `int(v)` on the values `GCDict.score` can hold: ints pass through,
bools coerce to 0/1, integer-literal strings parse, anything else raises. -/
def pyInt : JVal → Except Unit Int
  | .jint n => .ok n
  | .jbool b => .ok (if b then 1 else 0)
  | .jstr s => match pyIntOfString s with
    | some n => .ok n
    | none => .error ()
  | .jnull => .error ()

/-- The `out` list of `gigachat_filter`: per item, responses that parsed to a
dict are kept (paired with the item); every other outcome is skipped by the
`except: continue`. -/
def gc_out (classify : Item → GCResp) (items : List Item) : List (Item × GCDict) :=
  items.filterMap (fun it => match classify it with
    | .dict d => some (it, d)
    | _ => none)

/-- The `rel` list of `gigachat_filter`: entries whose `relevant` field is
exactly the boolean `true` (Python `meta.get("relevant") is True`). -/
def gc_rel (classify : Item → GCResp) (items : List Item) : List (Item × GCDict) :=
  (gc_out classify items).filter (fun p => decide (p.2.relevant = some (JVal.jbool true)))

/-- The sort-key pass of `rel.sort(key=lambda x: int(x[1].get("score", 0)), reverse=True)`:
compute `int(score)` for each entry in list order; the first non-coercible
score raises (and the exception escapes `gigachat_filter`). -/
def attach_keys : List (Item × GCDict) → Except Unit (List ((Item × GCDict) × Int))
  | [] => .ok []
  | p :: ps =>
    match pyInt ((p.2.score).getD (JVal.jint 0)) with
    | .error e => .error e
    | .ok k =>
      match attach_keys ps with
      | .error e => .error e
      | .ok rest => .ok ((p, k) :: rest)

/-- Stable descending insertion for the sort model: an element is placed
before the first element whose key is not larger, so earlier elements with
equal keys stay first, as in Python stable sort with `reverse=True`. -/
def insertDesc (x : (Item × GCDict) × Int) :
    List ((Item × GCDict) × Int) → List ((Item × GCDict) × Int)
  | [] => [x]
  | y :: ys => if y.2 ≤ x.2 then x :: y :: ys else y :: insertDesc x ys

/-- Stable descending sort by score key. -/
def sortDesc : List ((Item × GCDict) × Int) → List ((Item × GCDict) × Int)
  | [] => []
  | x :: xs => insertDesc x (sortDesc xs)

/-- Function `gigachat_filter` from `main.py`, with the external classifier
call abstracted as `classify` (the `credentials` argument only configured that
client). Returns the relevant entries sorted by descending score, or an error
when a sort key raises. -/
def gigachat_filter (items : List Item) (classify : Item → GCResp) :
    Except Unit (List (Item × GCDict)) :=
  match attach_keys (gc_rel classify items) with
  | .error e => .error e
  | .ok keyed => .ok ((sortDesc keyed).map Prod.fst)

/-- Outcome of one HTTP GET attempt, as observed by `fetch_text`: a body with
a non-error status, an HTTP error status (optionally carrying a numeric
`Retry-After` header value), or a network-level failure. -/
inductive FetchResp where
  | ok : String → FetchResp
  | httpError : Nat → Option Nat → FetchResp
  | netError : FetchResp
deriving DecidableEq

/-- Errors `fetch_text` can raise. -/
inductive FetchErr where
  | http : Nat → FetchErr
  | net : FetchErr
deriving DecidableEq

/-- Function `fetch_text` from `main.py`: `raise_for_status()` turns an error
status into an exception (the `Retry-After` header is never read), a network
failure raises, otherwise the body is returned. -/
def fetch_text : FetchResp → Except FetchErr String
  | .ok body => .ok body
  | .httpError status _ => .error (.http status)
  | .netError => .error .net

/-- The `delays` schedule of `robust_fetch_text` from `main.py`. -/
def fetch_delays : List Nat := [0, 2, 5, 10]

instance {ε α : Type} [DecidableEq ε] [DecidableEq α] : DecidableEq (Except ε α)
  | .ok a, .ok b => if h : a = b then .isTrue (by rw [h]) else .isFalse (by simp [h])
  | .ok _, .error _ => .isFalse (by simp)
  | .error _, .ok _ => .isFalse (by simp)
  | .error a, .error b => if h : a = b then .isTrue (by rw [h]) else .isFalse (by simp [h])

/-- The observable trace of one `robust_fetch_text` call: its result (the
error side carries the `RuntimeError` message), the number of attempts made,
the sleeps performed (in seconds, in order), and the last underlying
exception (the `__cause__` chained into the final `RuntimeError`). -/
structure FetchTrace where
  result : Except String String
  attempts : Nat
  sleeps : List Nat
  lastErr : Option FetchErr
deriving DecidableEq

/-- The retry loop of `robust_fetch_text`: for each delay, sleep when nonzero,
attempt the fetch (`responder i` is the outcome of attempt `i`), return on
success, remember the exception and continue on failure. -/
def robust_fetch_go (url : String) (responder : Nat → FetchResp) :
    List Nat → Nat → List Nat → Option FetchErr → FetchTrace
  | [], i, slept, lastE => ⟨.error ("Failed to fetch " ++ url), i, slept, lastE⟩
  | d :: rest, i, slept, lastE =>
    let slept2 := if d = 0 then slept else slept ++ [d]
    match fetch_text (responder i) with
    | .ok body => ⟨.ok body, i + 1, slept2, lastE⟩
    | .error e => robust_fetch_go url responder rest (i + 1) slept2 (some e)

/-- Function `robust_fetch_text` from `main.py`: backoff loop over the fixed
delay schedule, raising `RuntimeError` naming the URL after the last attempt. -/
def robust_fetch_text (url : String) (responder : Nat → FetchResp) : FetchTrace :=
  robust_fetch_go url responder fetch_delays 0 [] none

/-- One entry of `sources.json`: the fields `run_once` reads directly. The
extraction logic of `collect_items` is HTTP- and HTML-library-bound, so its
outcome per source is supplied by the run environment. -/
structure Source where
  regulator : String
  url : String
deriving DecidableEq

/-- Errors `run_once` can terminate with: a configuration error raised before
any network activity, a failing notification send (`tg_send` raising on a
non-2xx response, carrying the text it tried to post), or an exception
escaping `gigachat_filter`. -/
inductive RunError where
  | configError : String → RunError
  | sendError : String → RunError
  | filterError : RunError
deriving DecidableEq

/-- The observable outcome of one `run_once` call: its result, the
`(regulator, final_items)` batches whose notification was successfully posted
(in posting order), every text successfully posted to the chat API (in
order), the collected per-source error list, the aggregated error message if
one was posted, and the state written to `state.json` (`none` when the run
raised before `save_json`). -/
structure RunOutcome where
  result : Except RunError Unit
  notifications : List (String × List Item)
  sentTexts : List String
  errors : List String
  errorReport : Option String
  savedState : Option StateJson
deriving DecidableEq

/-- Outcome of a run that raised a configuration error: nothing was fetched,
posted, collected or written. -/
def emptyOutcome (e : RunError) : RunOutcome := ⟨.error e, [], [], [], none, none⟩

/-- The run environment: configuration values as read from the environment
variables (before `.strip()`), the parsed `sources.json` (`none` when it is
not a list), and the external world: per-source `collect_items` outcome,
per-item classifier outcome, and whether posting a given text succeeds.
`nowStr` stands for `now_msk_str()` and `ts` for the UTC timestamp
`mark_seen` records. -/
structure Env where
  bot_token : String
  chat_id : String
  giga_credentials : String
  sources : Option (List Source)
  fetchResult : Source → Except String (List Item)
  classify : Item → GCResp
  sendOk : String → Bool
  nowStr : String
  ts : String

/-- The error entry `one_source` records: `f"{reg}: {url} -> {type(e).__name__}: {e}"`,
with the exception rendered as one string. -/
def source_error_entry (src : Source) (e : String) : String :=
  src.regulator ++ ": " ++ src.url ++ " -> " ++ e

/-- The body of `one_source` from `run_once`, acting on the shared
`(all_new, errors)` accumulators: on success, append the source's
non-navigation unseen items to `all_new`; on an exception, append an error
entry to `errors`. -/
def gatherStep (st : StateJson) (fetch : Source → Except String (List Item))
    (acc : List Item × List String) (src : Source) : List Item × List String :=
  match fetch src with
  | .error e => (acc.1, acc.2 ++ [source_error_entry src e])
  | .ok items =>
    let kept := items.filter (fun it => !is_probably_navigation it.title it.url)
    let new_items := kept.filter (fun it => !is_seen st it)
    (acc.1 ++ new_items, acc.2)

/-- The fan-out over sources in `run_once` (`one_source` gathered over the
source list, in-order). -/
def gatherSources (st : StateJson) (fetch : Source → Except String (List Item))
    (srcs : List Source) : List Item × List String :=
  srcs.foldl (gatherStep st fetch) ([], [])

/-- What one source contributes to `all_new`: nothing on failure, its
non-navigation unseen items on success. -/
def new_of (st : StateJson) (fetch : Source → Except String (List Item))
    (src : Source) : List Item :=
  match fetch src with
  | .error _ => []
  | .ok items =>
    (items.filter (fun it => !is_probably_navigation it.title it.url)).filter
      (fun it => !is_seen st it)

/-- What one source contributes to `errors`: its entry on failure. -/
def err_of (fetch : Source → Except String (List Item)) (src : Source) : Option String :=
  match fetch src with
  | .error e => some (source_error_entry src e)
  | .ok _ => none

/-- The items of a list belonging to one regulator, in order. -/
def regFilter (reg : String) (l : List Item) : List Item :=
  l.filter (fun it => decide (it.regulator = reg))

/-- Keys of an association list, in order. -/
def keysA {β : Type} (m : List (String × β)) : List String := m.map Prod.fst

/-- The `by_reg` grouping of `run_once`: a dict from regulator to its items,
keys in first-appearance order, each group in encounter order. -/
def by_reg (items : List Item) : List (String × List Item) :=
  items.foldl (fun m it => appendAssoc it.regulator it m) []

/-- The state of the per-regulator notify loop of `run_once` after processing
some groups: the mutated seen state, the successfully posted batches and
texts, and the exception that stopped the loop, if any. -/
structure LoopOut where
  st : StateJson
  batches : List (String × List Item)
  texts : List String
  err : Option RunError
deriving DecidableEq

/-- The per-regulator loop of `run_once`: classify the group, keep the first
`MAX_ITEMS_PER_REGULATOR` relevant items, skip the group when none survive,
otherwise mark them seen, build the message and post it; a classifier sort
exception or a failing post stops the loop and escapes. -/
def notifyLoop (nowStr ts : String) (classify : Item → GCResp) (sendOk : String → Bool) :
    StateJson → List (String × List Item) → LoopOut
  | st, [] => ⟨st, [], [], none⟩
  | st, (regulator, items) :: rest =>
    match gigachat_filter items classify with
    | .error _ => ⟨st, [], [], some .filterError⟩
    | .ok filtered =>
      let final_items := (filtered.map Prod.fst).take MAX_ITEMS_PER_REGULATOR
      if final_items.isEmpty then
        notifyLoop nowStr ts classify sendOk st rest
      else
        let st2 := final_items.foldl (mark_seen ts) st
        let msg := build_message nowStr regulator final_items
        if sendOk msg then
          let out := notifyLoop nowStr ts classify sendOk st2 rest
          ⟨out.st, (regulator, final_items) :: out.batches, msg :: out.texts, out.err⟩
        else ⟨st2, [], [], some (.sendError msg)⟩

/-- Header of the aggregated error message of `run_once`. -/
def err_header : String := "Мониторинг НПА (ИБ)\nОшибки источников:\n"

/-- The `(all_new, errors)` pair of a run, before the total cap. -/
def run_gather (env : Env) (srcs : List Source) (disk : Option StateJson) :
    List Item × List String :=
  gatherSources (load_state disk) env.fetchResult srcs

/-- The by-regulator groups of a run, after the `MAX_TOTAL_ITEMS` cap. -/
def run_groups (env : Env) (srcs : List Source) (disk : Option StateJson) :
    List (String × List Item) :=
  by_reg ((run_gather env srcs disk).1.take MAX_TOTAL_ITEMS)

/-- The notify loop of a run, started from the loaded state. -/
def run_loop (env : Env) (srcs : List Source) (disk : Option StateJson) : LoopOut :=
  notifyLoop env.nowStr env.ts env.classify env.sendOk (load_state disk)
    (run_groups env srcs disk)

/-- The body of `run_once` after the configuration checks: gather, cap, group,
notify, post the aggregated error message when errors were collected, and
write the state file only when nothing raised. -/
def run_main (env : Env) (srcs : List Source) (disk : Option StateJson) : RunOutcome :=
  let ge := run_gather env srcs disk
  let lo := run_loop env srcs disk
  match lo.err with
  | some e => ⟨.error e, lo.batches, lo.texts, ge.2, none, none⟩
  | none =>
    if ge.2.isEmpty then ⟨.ok (), lo.batches, lo.texts, ge.2, none, some lo.st⟩
    else
      let err_text := err_header ++ joinLines (ge.2.take 15)
      if env.sendOk err_text then
        ⟨.ok (), lo.batches, lo.texts ++ [err_text], ge.2, some err_text, some lo.st⟩
      else ⟨.error (.sendError err_text), lo.batches, lo.texts, ge.2, none, none⟩

/-- Function `run_once` from `main.py`: configuration checks (on the stripped
environment values), then the main body. `disk` is the content of
`state.json` at run start (`none` when absent or invalid). -/
def run_once (env : Env) (disk : Option StateJson) : RunOutcome :=
  if pyStrip env.bot_token = "" ∨ pyStrip env.chat_id = "" then
    emptyOutcome (.configError "BOT_TOKEN/CHAT_ID are missing")
  else if pyStrip env.giga_credentials = "" then
    emptyOutcome (.configError "GIGACHAT_CREDENTIALS is missing")
  else
    match env.sources with
    | none => emptyOutcome (.configError "sources.json invalid")
    | some srcs => run_main env srcs disk

/-- Does some posted batch contain an item with this item's dedup scope and
key (same regulator, same URL)? -/
def batch_covers (batches : List (String × List Item)) (it : Item) : Bool :=
  batches.any (fun b => b.2.any (fun j => decide (j.regulator = it.regulator ∧ j.url = it.url)))

/-- Decidable form of the per-regulator cap hypothesis: every group's
classifier pass (when it succeeds) keeps at most `MAX_ITEMS_PER_REGULATOR`
relevant entries. -/
def groups_within_cap (classify : Item → GCResp) (groups : List (String × List Item)) : Bool :=
  groups.all (fun g => match gigachat_filter g.2 classify with
    | .ok l => decide (l.length ≤ MAX_ITEMS_PER_REGULATOR)
    | .error _ => true)

/-- A classifier verdict: a well-formed relevant response with integer score. -/
def relevantResp (sc : Int) : GCResp :=
  .dict { relevant := some (.jbool true), score := some (.jint sc) }

/-- Concrete item family for the cap-overflow run: one regulator, distinct URLs. -/
def capItem (n : Nat) : Item :=
  { regulator := "R", title := "d" ++ toString n, url := "u" ++ toString n }

/-- Two sources of the same regulator yielding 16 relevant items in total:
more than `MAX_ITEMS_PER_REGULATOR`, so the first run truncates. -/
def capEnv : Env :=
  { bot_token := "B", chat_id := "C", giga_credentials := "G",
    sources := some [⟨"R", "sa"⟩, ⟨"R", "sb"⟩],
    fetchResult := fun s =>
      if s.url = "sa" then .ok ((List.range 8).map (fun n => capItem (n + 1)))
      else .ok ((List.range 8).map (fun n => capItem (n + 9))),
    classify := fun _ => relevantResp 50,
    sendOk := fun _ => true,
    nowStr := "N", ts := "T" }

/-- Two items with the same URL under different regulators, different titles. -/
def dupA : Item := { regulator := "R1", title := "t1", url := "http://u" }

/-- The second item of the duplicate-URL pair. -/
def dupB : Item := { regulator := "R2", title := "t2", url := "http://u" }

/-- Two sources, each producing one of the duplicate-URL items. -/
def dupEnv : Env :=
  { bot_token := "B", chat_id := "C", giga_credentials := "G",
    sources := some [⟨"R1", "s1"⟩, ⟨"R2", "s2"⟩],
    fetchResult := fun s => if s.url = "s1" then .ok [dupA] else .ok [dupB],
    classify := fun _ => relevantResp 50,
    sendOk := fun _ => true,
    nowStr := "N", ts := "T" }

/-- An 800-character title. -/
def bigTitle : String := String.join (List.replicate 40 "0123456789abcdefghij")

/-- Item with an 800-character title. -/
def bigItem (n : Nat) : Item := { regulator := "R", title := bigTitle, url := "v" ++ toString n }

/-- Five long items: their rendered message exceeds 3900 characters. -/
def bigItems : List Item := (List.range 5).map (fun n => bigItem (n + 1))

/-- One source yielding the five long items. -/
def bigEnv : Env :=
  { bot_token := "B", chat_id := "C", giga_credentials := "G",
    sources := some [⟨"R", "s"⟩],
    fetchResult := fun _ => .ok bigItems,
    classify := fun _ => relevantResp 50,
    sendOk := fun _ => true,
    nowStr := "N", ts := "T" }

/-- A classifier response that parses to a dict with `relevant: true` but a
non-numeric `score` value: `json.loads` succeeds, so the per-item `try` block
accepts it, and `int("high")` later raises inside the sort key. -/
def badScoreResp : GCResp := .dict { relevant := some (.jbool true), score := some (.jstr "high") }

/-- The item whose classification response is malformed. -/
def badItem : Item := { regulator := "R", title := "T", url := "u" }

/-- A run whose only candidate item gets the malformed classifier response. -/
def badEnv : Env :=
  { bot_token := "B", chat_id := "C", giga_credentials := "G",
    sources := some [⟨"R", "s"⟩],
    fetchResult := fun _ => .ok [badItem],
    classify := fun _ => badScoreResp,
    sendOk := fun _ => true,
    nowStr := "N", ts := "T" }

/-- A configuration with chat credentials but no classifier credential. -/
def noCredEnv : Env :=
  { bot_token := "B", chat_id := "C", giga_credentials := "",
    sources := some [⟨"R", "s"⟩],
    fetchResult := fun _ => .ok [],
    classify := fun _ => .fail,
    sendOk := fun _ => true,
    nowStr := "N", ts := "T" }

/-- An HTTP responder that returns 404 on every attempt. -/
def resp404 : Nat → FetchResp := fun _ => .httpError 404 none

/-- An HTTP responder returning 429 with a numeric `Retry-After` header value
on the first attempt, then a success body. -/
def resp429 (n : Nat) (body : String) : Nat → FetchResp :=
  fun i => if i = 0 then .httpError 429 (some n) else .ok body

/-- The single item of the small happy-path run. -/
def wItem : Item := { regulator := "A", title := "Doc1", url := "http://x/doc1" }

/-- A second item with the same URL and regulator as `wItem` but another title. -/
def wItemB : Item := { regulator := "A", title := "Doc1 copy", url := "http://x/doc1" }

/-- One source, one relevant item, everything succeeding. -/
def wEnv : Env :=
  { bot_token := "B", chat_id := "C", giga_credentials := "G",
    sources := some [⟨"A", "http://x/rss"⟩],
    fetchResult := fun _ => .ok [wItem],
    classify := fun _ => relevantResp 90,
    sendOk := fun _ => true,
    nowStr := "N", ts := "T" }

/-- A relevant and an irrelevant item from one source. -/
def w9a : Item := { regulator := "A", title := "Doc1", url := "w9a" }

/-- The irrelevant item of the pair. -/
def w9b : Item := { regulator := "A", title := "Doc2", url := "w9b" }

/-- A run where the classifier keeps `w9a` and drops `w9b`. -/
def w9Env : Env :=
  { bot_token := "B", chat_id := "C", giga_credentials := "G",
    sources := some [⟨"A", "s"⟩],
    fetchResult := fun _ => .ok [w9a, w9b],
    classify := fun it =>
      if it.url = "w9b" then .dict { relevant := some (.jbool false), score := some (.jint 10) }
      else relevantResp 10,
    sendOk := fun _ => true,
    nowStr := "N", ts := "T" }

/-- Items of two regulators for the failing-send run. -/
def wfA : Item := { regulator := "R1", title := "a", url := "wa" }

/-- The second regulator's item of the failing-send run. -/
def wfB : Item := { regulator := "R2", title := "b", url := "wb" }

/-- The text whose posting fails in the failing-send run. -/
def wfMsg2 : String := build_message "N" "R2" [wfB]

/-- A run where the first notification posts fine and the second is rejected. -/
def wfEnv : Env :=
  { bot_token := "B", chat_id := "C", giga_credentials := "G",
    sources := some [⟨"R1", "s1"⟩, ⟨"R2", "s2"⟩],
    fetchResult := fun s => if s.url = "s1" then .ok [wfA] else .ok [wfB],
    classify := fun _ => relevantResp 10,
    sendOk := fun t2 => !(t2 == wfMsg2),
    nowStr := "N", ts := "T" }

/-- Environment of the partial-failure run: source `srcX` raises the exception
rendered as `e`, source `srcY` yields the single item `itY`, the classifier
accepts everything with score `sc`, and every post succeeds. -/
def c8_env (bt cid gc ns ts e : String) (srcX srcY : Source) (itY : Item) (sc : Int) : Env :=
  { bot_token := bt, chat_id := cid, giga_credentials := gc,
    sources := some [srcX, srcY],
    fetchResult := fun s => if s.url = srcX.url then .error e else .ok [itY],
    classify := fun _ => relevantResp sc,
    sendOk := fun _ => true,
    nowStr := ns, ts := ts }

theorem lookupA_setAssoc {β : Type} (k k2 : String) (v : β) (m : List (String × β)) :
    lookupA k (setAssoc k2 v m) = if k2 = k then some v else lookupA k m := by
  induction m with
  | nil => simp [setAssoc, lookupA]
  | cons p rest ih =>
    obtain ⟨k3, v3⟩ := p
    by_cases h1 : k3 = k2
    · subst h1
      by_cases h2 : k3 = k <;> simp [setAssoc, lookupA, h2]
    · by_cases h2 : k3 = k
      · subst h2
        have : ¬ k2 = k3 := fun h => h1 h.symm
        simp [setAssoc, lookupA, h1, this]
      · simp [setAssoc, lookupA, h1, h2, ih]

theorem is_seen_mark_seen (ts : String) (st : StateJson) (j it : Item) :
    is_seen (mark_seen ts st j) it =
      (is_seen st it || decide (j.regulator = it.regulator ∧ j.url = it.url)) := by
  unfold is_seen mark_seen item_key
  by_cases hr : j.regulator = it.regulator
  · by_cases hu : j.url = it.url <;>
      simp [lookupA_setAssoc, hr, hu]
  · simp [lookupA_setAssoc, hr]

theorem is_seen_foldl_mark (ts : String) (fin : List Item) (st : StateJson) (it : Item) :
    is_seen (fin.foldl (mark_seen ts) st) it =
      (is_seen st it ||
        fin.any (fun j => decide (j.regulator = it.regulator ∧ j.url = it.url))) := by
  induction fin generalizing st with
  | nil => simp
  | cons j rest ih =>
    simp only [List.foldl_cons, List.any_cons, ih, is_seen_mark_seen]
    rw [Bool.or_assoc]

theorem gatherSources_aux (st : StateJson) (fetch : Source → Except String (List Item)) :
    ∀ (srcs : List Source) (acc : List Item × List String),
      srcs.foldl (gatherStep st fetch) acc =
        (acc.1 ++ srcs.flatMap (new_of st fetch), acc.2 ++ srcs.filterMap (err_of fetch)) := by
  intro srcs
  induction srcs with
  | nil => intro acc; simp
  | cons src rest ih =>
    intro acc
    rw [List.foldl_cons, ih]
    cases h : fetch src <;>
      simp [gatherStep, new_of, err_of, h, List.filterMap_cons]

theorem gatherSources_eq (st : StateJson) (fetch : Source → Except String (List Item))
    (srcs : List Source) :
    gatherSources st fetch srcs =
      (srcs.flatMap (new_of st fetch), srcs.filterMap (err_of fetch)) := by
  unfold gatherSources
  rw [gatherSources_aux]
  simp

theorem not_seen_of_mem_gather (st : StateJson) (fetch : Source → Except String (List Item))
    (srcs : List Source) (it : Item) (h : it ∈ (gatherSources st fetch srcs).1) :
    is_seen st it = false := by
  rw [gatherSources_eq] at h
  simp only [List.mem_flatMap] at h
  obtain ⟨src, _, hmem⟩ := h
  unfold new_of at hmem
  cases hfetch : fetch src <;> rw [hfetch] at hmem
  · simp at hmem
  · simp only [List.mem_filter] at hmem
    simpa using hmem.2

theorem lookupA_appendAssoc {β : Type} (k k2 : String) (x : β) (m : List (String × List β)) :
    lookupA k (appendAssoc k2 x m) =
      if k2 = k then some ((lookupA k m).getD [] ++ [x]) else lookupA k m := by
  induction m with
  | nil => by_cases h : k2 = k <;> simp [appendAssoc, lookupA, h]
  | cons p rest ih =>
    obtain ⟨k3, v3⟩ := p
    by_cases h1 : k3 = k2
    · subst h1
      by_cases h2 : k3 = k <;> simp [appendAssoc, lookupA, h2]
    · by_cases h2 : k3 = k
      · subst h2
        have h3 : ¬ k2 = k3 := fun h => h1 h.symm
        simp [appendAssoc, lookupA, h1, h3]
      · simp [appendAssoc, lookupA, h1, h2, ih]

theorem by_reg_aux (reg : String) :
    ∀ (l : List Item) (m : List (String × List Item)),
      lookupA reg (l.foldl (fun m2 it => appendAssoc it.regulator it m2) m) =
        match lookupA reg m with
        | some xs =>
          some (xs ++ regFilter reg l)
        | none =>
          if (regFilter reg l).isEmpty then none else some (regFilter reg l) := by
  intro l
  induction l with
  | nil =>
    intro m
    cases h : lookupA reg m <;> simp [regFilter, h]
  | cons it rest ih =>
    intro m
    rw [List.foldl_cons, ih]
    by_cases hr : it.regulator = reg
    · have hfil : regFilter reg (it :: rest) = it :: regFilter reg rest := by
        simp [regFilter, List.filter_cons, hr]
      rw [lookupA_appendAssoc]
      cases h : lookupA reg m <;> simp [h, hr, hfil]
    · have hfil : regFilter reg (it :: rest) = regFilter reg rest := by
        simp [regFilter, List.filter_cons, hr]
      rw [lookupA_appendAssoc]
      cases h : lookupA reg m <;> simp [h, hr, hfil]

theorem lookupA_by_reg (reg : String) (l : List Item) :
    lookupA reg (by_reg l) =
      if (regFilter reg l).isEmpty then none else some (regFilter reg l) := by
  unfold by_reg
  rw [by_reg_aux]
  simp [lookupA]

theorem keysA_appendAssoc {β : Type} (k : String) (x : β) (m : List (String × List β)) :
    keysA (appendAssoc k x m) = if k ∈ keysA m then keysA m else keysA m ++ [k] := by
  induction m with
  | nil => simp [appendAssoc, keysA]
  | cons p rest ih =>
    obtain ⟨k2, xs⟩ := p
    by_cases h : k2 = k
    · subst h
      simp [appendAssoc, keysA]
    · have h2 : ¬ k = k2 := fun hh => h hh.symm
      simp only [appendAssoc, if_neg h, keysA, List.map_cons] at ih ⊢
      rw [ih]
      by_cases hm : k ∈ List.map Prod.fst rest <;> simp [hm, h2]

theorem nodup_keysA_appendAssoc {β : Type} (k : String) (x : β)
    (m : List (String × List β)) (h : (keysA m).Nodup) :
    (keysA (appendAssoc k x m)).Nodup := by
  rw [keysA_appendAssoc]
  by_cases hm : k ∈ keysA m <;> simp [hm, h, List.nodup_append]

theorem nodup_keysA_by_reg_aux :
    ∀ (l : List Item) (m : List (String × List Item)), (keysA m).Nodup →
      (keysA (l.foldl (fun m2 it => appendAssoc it.regulator it m2) m)).Nodup := by
  intro l
  induction l with
  | nil => intro m h; simpa using h
  | cons it rest ih =>
    intro m h
    rw [List.foldl_cons]
    exact ih _ (nodup_keysA_appendAssoc _ _ _ h)

theorem nodup_keysA_by_reg (l : List Item) : (keysA (by_reg l)).Nodup := by
  unfold by_reg
  exact nodup_keysA_by_reg_aux l [] (by simp [keysA])

theorem lookupA_of_mem {β : Type} (p : String × β) :
    ∀ m : List (String × β), (keysA m).Nodup → p ∈ m → lookupA p.1 m = some p.2 := by
  intro m
  induction m with
  | nil => intro _ h; simp at h
  | cons q rest ih =>
    intro hnd h
    simp only [keysA, List.map_cons, List.nodup_cons] at hnd
    rcases List.mem_cons.mp h with h1 | h1
    · subst h1
      simp [lookupA]
    · have hq : q.1 ≠ p.1 := by
        intro hh
        exact hnd.1 (by rw [hh]; exact List.mem_map_of_mem Prod.fst h1)
      obtain ⟨k2, v2⟩ := q
      simp only [lookupA, if_neg hq]
      exact ih hnd.2 h1

theorem mem_of_lookupA {β : Type} (k : String) (v : β) (m : List (String × β))
    (h : lookupA k m = some v) : (k, v) ∈ m := by
  induction m with
  | nil => simp [lookupA] at h
  | cons q rest ih =>
    obtain ⟨k2, v2⟩ := q
    by_cases hk : k2 = k
    · subst hk
      simp [lookupA] at h
      simp [h]
    · simp only [lookupA, if_neg hk] at h
      exact List.mem_cons_of_mem _ (ih h)

theorem by_reg_group_eq (l : List Item) (p : String × List Item) (h : p ∈ by_reg l) :
    p.2 = regFilter p.1 l := by
  have hl := lookupA_of_mem p (by_reg l) (nodup_keysA_by_reg l) h
  rw [lookupA_by_reg] at hl
  by_cases he : (regFilter p.1 l).isEmpty <;> simp [he] at hl
  exact hl.symm

theorem mem_l_of_mem_by_reg (l : List Item) (p : String × List Item)
    (hp : p ∈ by_reg l) (it : Item) (h : it ∈ p.2) : it ∈ l := by
  rw [by_reg_group_eq l p hp] at h
  exact List.mem_of_mem_filter h

theorem exists_group_of_mem (l : List Item) (it : Item) (h : it ∈ l) :
    ∃ p ∈ by_reg l, p.1 = it.regulator ∧ it ∈ p.2 := by
  have hne : ¬ (regFilter it.regulator l).isEmpty := by
    have : it ∈ regFilter it.regulator l := by
      simp [regFilter, List.mem_filter, h]
    simp [List.isEmpty_iff]
    intro hh
    rw [hh] at this
    simp at this
  have hl : lookupA it.regulator (by_reg l) = some (regFilter it.regulator l) := by
    rw [lookupA_by_reg]
    simp [hne]
  refine ⟨(it.regulator, regFilter it.regulator l), mem_of_lookupA _ _ _ hl, rfl, ?_⟩
  simp [regFilter, List.mem_filter, h]

theorem mem_insertDesc (x a : (Item × GCDict) × Int) (l : List ((Item × GCDict) × Int)) :
    a ∈ insertDesc x l ↔ a = x ∨ a ∈ l := by
  induction l with
  | nil => simp [insertDesc]
  | cons y ys ih =>
    by_cases h : y.2 ≤ x.2
    · simp [insertDesc, h]
    · simp [insertDesc, h, ih]
      tauto

theorem mem_sortDesc (a : (Item × GCDict) × Int) (l : List ((Item × GCDict) × Int)) :
    a ∈ sortDesc l ↔ a ∈ l := by
  induction l with
  | nil => simp [sortDesc]
  | cons x xs ih => simp [sortDesc, mem_insertDesc, ih]

theorem attach_keys_ok_map_fst (l : List (Item × GCDict))
    (kl : List ((Item × GCDict) × Int)) (h : attach_keys l = .ok kl) :
    kl.map Prod.fst = l := by
  induction l generalizing kl with
  | nil =>
    simp [attach_keys] at h
    simp [← h]
  | cons p ps ih =>
    simp only [attach_keys] at h
    cases h1 : pyInt ((p.2.score).getD (JVal.jint 0)) <;> rw [h1] at h
    · simp at h
    · cases h2 : attach_keys ps <;> rw [h2] at h
      · simp at h
      · simp at h
        rw [← h]
        simp [ih _ h2]

theorem mem_gc_out (classify : Item → GCResp) (items : List Item) (it : Item) (d : GCDict) :
    (it, d) ∈ gc_out classify items ↔ it ∈ items ∧ classify it = .dict d := by
  unfold gc_out
  rw [List.mem_filterMap]
  constructor
  · rintro ⟨a, ha, hf⟩
    cases hc : classify a <;> rw [hc] at hf <;> simp at hf
    obtain ⟨h1, h2⟩ := hf
    subst h1
    rw [h2] at hc
    exact ⟨ha, hc⟩
  · rintro ⟨ha, hc⟩
    exact ⟨it, ha, by rw [hc]⟩

theorem mem_gc_rel (classify : Item → GCResp) (items : List Item) (it : Item) (d : GCDict) :
    (it, d) ∈ gc_rel classify items ↔
      it ∈ items ∧ classify it = .dict d ∧ d.relevant = some (JVal.jbool true) := by
  unfold gc_rel
  rw [List.mem_filter, mem_gc_out]
  simp
  tauto

theorem gigachat_filter_ok_mem (items : List Item) (classify : Item → GCResp)
    (l : List (Item × GCDict)) (hok : gigachat_filter items classify = .ok l)
    (it : Item) (d : GCDict) (hmem : it ∈ items) (hc : classify it = .dict d)
    (hrel : d.relevant = some (JVal.jbool true)) : (it, d) ∈ l := by
  unfold gigachat_filter at hok
  cases hk : attach_keys (gc_rel classify items) <;> rw [hk] at hok
  · simp at hok
  · simp at hok
    have hrelmem : (it, d) ∈ gc_rel classify items := by
      rw [mem_gc_rel]
      exact ⟨hmem, hc, hrel⟩
    rw [← attach_keys_ok_map_fst _ _ hk] at hrelmem
    rw [List.mem_map] at hrelmem
    obtain ⟨x, hx, hfst⟩ := hrelmem
    rw [← hok]
    rw [List.mem_map]
    exact ⟨x, (mem_sortDesc x _).mpr hx, hfst⟩

theorem gigachat_filter_of_rel_empty (items : List Item) (classify : Item → GCResp)
    (h : gc_rel classify items = []) : gigachat_filter items classify = .ok [] := by
  unfold gigachat_filter
  rw [h]
  simp [attach_keys, sortDesc]

theorem batch_covers_cons (b : String × List Item) (bs : List (String × List Item)) (it : Item) :
    batch_covers (b :: bs) it =
      (b.2.any (fun j => decide (j.regulator = it.regulator ∧ j.url = it.url))
        || batch_covers bs it) := by
  simp [batch_covers]

theorem notifyLoop_nil (n t : String) (c : Item → GCResp) (k : String → Bool) (st : StateJson) :
    notifyLoop n t c k st [] = ⟨st, [], [], none⟩ := rfl

theorem notifyLoop_cons_error (n t : String) (c : Item → GCResp) (k : String → Bool)
    (st : StateJson) (reg : String) (items : List Item) (rest : List (String × List Item))
    (e : Unit) (hf : gigachat_filter items c = .error e) :
    notifyLoop n t c k st ((reg, items) :: rest) = ⟨st, [], [], some .filterError⟩ := by
  simp only [notifyLoop, hf]

theorem notifyLoop_cons_skip (n t : String) (c : Item → GCResp) (k : String → Bool)
    (st : StateJson) (reg : String) (items : List Item) (rest : List (String × List Item))
    (l : List (Item × GCDict)) (hf : gigachat_filter items c = .ok l)
    (he : (l.map Prod.fst).take MAX_ITEMS_PER_REGULATOR = []) :
    notifyLoop n t c k st ((reg, items) :: rest) = notifyLoop n t c k st rest := by
  simp only [notifyLoop, hf, he]
  rfl

theorem notifyLoop_cons_send (n t : String) (c : Item → GCResp) (k : String → Bool)
    (st : StateJson) (reg : String) (items : List Item) (rest : List (String × List Item))
    (l : List (Item × GCDict)) (hf : gigachat_filter items c = .ok l)
    (he : (l.map Prod.fst).take MAX_ITEMS_PER_REGULATOR ≠ [])
    (hs : k (build_message n reg ((l.map Prod.fst).take MAX_ITEMS_PER_REGULATOR)) = true) :
    notifyLoop n t c k st ((reg, items) :: rest) =
      ⟨(notifyLoop n t c k
          (((l.map Prod.fst).take MAX_ITEMS_PER_REGULATOR).foldl (mark_seen t) st) rest).st,
        (reg, (l.map Prod.fst).take MAX_ITEMS_PER_REGULATOR) ::
          (notifyLoop n t c k
            (((l.map Prod.fst).take MAX_ITEMS_PER_REGULATOR).foldl (mark_seen t) st) rest).batches,
        build_message n reg ((l.map Prod.fst).take MAX_ITEMS_PER_REGULATOR) ::
          (notifyLoop n t c k
            (((l.map Prod.fst).take MAX_ITEMS_PER_REGULATOR).foldl (mark_seen t) st) rest).texts,
        (notifyLoop n t c k
          (((l.map Prod.fst).take MAX_ITEMS_PER_REGULATOR).foldl (mark_seen t) st) rest).err⟩ := by
  have he2 : ((l.map Prod.fst).take MAX_ITEMS_PER_REGULATOR).isEmpty = false := by
    simpa [List.isEmpty_iff] using he
  simp only [notifyLoop, hf, he2, hs]
  rfl

theorem notifyLoop_cons_sendfail (n t : String) (c : Item → GCResp) (k : String → Bool)
    (st : StateJson) (reg : String) (items : List Item) (rest : List (String × List Item))
    (l : List (Item × GCDict)) (hf : gigachat_filter items c = .ok l)
    (he : (l.map Prod.fst).take MAX_ITEMS_PER_REGULATOR ≠ [])
    (hs : k (build_message n reg ((l.map Prod.fst).take MAX_ITEMS_PER_REGULATOR)) = false) :
    notifyLoop n t c k st ((reg, items) :: rest) =
      ⟨((l.map Prod.fst).take MAX_ITEMS_PER_REGULATOR).foldl (mark_seen t) st, [], [],
        some (.sendError (build_message n reg ((l.map Prod.fst).take MAX_ITEMS_PER_REGULATOR)))⟩ := by
  have he2 : ((l.map Prod.fst).take MAX_ITEMS_PER_REGULATOR).isEmpty = false := by
    simpa [List.isEmpty_iff] using he
  simp only [notifyLoop, hf, he2, hs]
  rfl

theorem notifyLoop_all_empty (n t : String) (c : Item → GCResp) (k : String → Bool) :
    ∀ (groups : List (String × List Item)) (st : StateJson),
      (∀ g ∈ groups, gigachat_filter g.2 c = .ok []) →
      notifyLoop n t c k st groups = ⟨st, [], [], none⟩ := by
  intro groups
  induction groups with
  | nil => intro st _; rfl
  | cons g rest ih =>
    intro st hall
    obtain ⟨reg, items⟩ := g
    have hg : gigachat_filter items c = .ok [] := hall (reg, items) (List.mem_cons_self _ _)
    rw [notifyLoop_cons_skip n t c k st reg items rest [] hg rfl]
    exact ih st (fun g2 hgmem => hall g2 (List.mem_cons_of_mem _ hgmem))

theorem notifyLoop_texts (n t : String) (c : Item → GCResp) (k : String → Bool) :
    ∀ (groups : List (String × List Item)) (st : StateJson),
      (notifyLoop n t c k st groups).texts
        = (notifyLoop n t c k st groups).batches.map (fun b => build_message n b.1 b.2) := by
  intro groups
  induction groups with
  | nil => intro st; rfl
  | cons g rest ih =>
    intro st
    obtain ⟨reg, items⟩ := g
    rcases hf : gigachat_filter items c with e | l
    · rw [notifyLoop_cons_error n t c k st reg items rest e hf]
      rfl
    · by_cases he : (l.map Prod.fst).take MAX_ITEMS_PER_REGULATOR = []
      · rw [notifyLoop_cons_skip n t c k st reg items rest l hf he]
        exact ih st
      · by_cases hs : k (build_message n reg ((l.map Prod.fst).take MAX_ITEMS_PER_REGULATOR)) = true
        · rw [notifyLoop_cons_send n t c k st reg items rest l hf he hs]
          simp only [List.map_cons]
          rw [ih]
        · have hs2 : k (build_message n reg ((l.map Prod.fst).take MAX_ITEMS_PER_REGULATOR)) = false := by
            simpa using hs
          rw [notifyLoop_cons_sendfail n t c k st reg items rest l hf he hs2]
          rfl

theorem notifyLoop_seen (n t : String) (c : Item → GCResp) (k : String → Bool) :
    ∀ (groups : List (String × List Item)) (st : StateJson),
      (notifyLoop n t c k st groups).err = none →
      ∀ it : Item,
        is_seen (notifyLoop n t c k st groups).st it
          = (is_seen st it || batch_covers (notifyLoop n t c k st groups).batches it) := by
  intro groups
  induction groups with
  | nil => intro st _ it; simp [notifyLoop_nil, batch_covers]
  | cons g rest ih =>
    intro st herr it
    obtain ⟨reg, items⟩ := g
    rcases hf : gigachat_filter items c with e | l
    · rw [notifyLoop_cons_error n t c k st reg items rest e hf] at herr
      simp at herr
    · by_cases he : (l.map Prod.fst).take MAX_ITEMS_PER_REGULATOR = []
      · rw [notifyLoop_cons_skip n t c k st reg items rest l hf he] at herr ⊢
        exact ih st herr it
      · by_cases hs : k (build_message n reg ((l.map Prod.fst).take MAX_ITEMS_PER_REGULATOR)) = true
        · rw [notifyLoop_cons_send n t c k st reg items rest l hf he hs] at herr ⊢
          rw [ih _ herr it, is_seen_foldl_mark, batch_covers_cons, Bool.or_assoc]
        · have hs2 : k (build_message n reg ((l.map Prod.fst).take MAX_ITEMS_PER_REGULATOR)) = false := by
            simpa using hs
          rw [notifyLoop_cons_sendfail n t c k st reg items rest l hf he hs2] at herr
          simp at herr

theorem notifyLoop_groups (n t : String) (c : Item → GCResp) (k : String → Bool) :
    ∀ (groups : List (String × List Item)) (st : StateJson),
      (notifyLoop n t c k st groups).err = none →
      ∀ g ∈ groups, ∃ l, gigachat_filter g.2 c = .ok l ∧
        ((l.map Prod.fst).take MAX_ITEMS_PER_REGULATOR = [] ∨
          (g.1, (l.map Prod.fst).take MAX_ITEMS_PER_REGULATOR)
            ∈ (notifyLoop n t c k st groups).batches) := by
  intro groups
  induction groups with
  | nil => intro st _ g hg; simp at hg
  | cons g0 rest ih =>
    intro st herr g hg
    obtain ⟨reg, items⟩ := g0
    rcases hf : gigachat_filter items c with e | l
    · rw [notifyLoop_cons_error n t c k st reg items rest e hf] at herr
      simp at herr
    · by_cases he : (l.map Prod.fst).take MAX_ITEMS_PER_REGULATOR = []
      · rw [notifyLoop_cons_skip n t c k st reg items rest l hf he] at herr ⊢
        rcases List.mem_cons.mp hg with h1 | h1
        · subst h1
          exact ⟨l, hf, Or.inl he⟩
        · exact ih st herr g h1
      · by_cases hs : k (build_message n reg ((l.map Prod.fst).take MAX_ITEMS_PER_REGULATOR)) = true
        · rw [notifyLoop_cons_send n t c k st reg items rest l hf he hs] at herr ⊢
          rcases List.mem_cons.mp hg with h1 | h1
          · subst h1
            exact ⟨l, hf, Or.inr (List.mem_cons_self _ _)⟩
          · obtain ⟨l2, hl2, hdisj⟩ := ih _ herr g h1
            exact ⟨l2, hl2, hdisj.imp id (fun hmem => List.mem_cons_of_mem _ hmem)⟩
        · have hs2 : k (build_message n reg ((l.map Prod.fst).take MAX_ITEMS_PER_REGULATOR)) = false := by
            simpa using hs
          rw [notifyLoop_cons_sendfail n t c k st reg items rest l hf he hs2] at herr
          simp at herr

theorem run_main_notifications (env : Env) (srcs : List Source) (disk : Option StateJson) :
    (run_main env srcs disk).notifications = (run_loop env srcs disk).batches := by
  unfold run_main
  cases h : (run_loop env srcs disk).err
  · by_cases he : (run_gather env srcs disk).2.isEmpty
    · simp [h, he]
    · by_cases hs : env.sendOk (err_header ++ joinLines ((run_gather env srcs disk).2.take 15)) <;>
        simp [h, he, hs]
  · simp [h]

theorem run_main_ok (env : Env) (srcs : List Source) (disk : Option StateJson)
    (h : (run_main env srcs disk).result = .ok ()) :
    (run_loop env srcs disk).err = none ∧
      (run_main env srcs disk).savedState = some (run_loop env srcs disk).st := by
  simp only [run_main] at h ⊢
  cases herr : (run_loop env srcs disk).err
  · by_cases he : (run_gather env srcs disk).2.isEmpty
    · simp [herr, he]
    · by_cases hs : env.sendOk (err_header ++ joinLines ((run_gather env srcs disk).2.take 15))
      · simp [herr, he, hs]
      · simp [herr, he, hs] at h
  · simp [herr] at h

theorem run_main_sent (env : Env) (srcs : List Source) (disk : Option StateJson)
    (h : (run_main env srcs disk).result = .ok ()) :
    (run_main env srcs disk).sentTexts =
      (run_loop env srcs disk).texts ++ ((run_main env srcs disk).errorReport).toList := by
  simp only [run_main] at h ⊢
  cases herr : (run_loop env srcs disk).err
  · by_cases he : (run_gather env srcs disk).2.isEmpty
    · simp [herr, he]
    · by_cases hs : env.sendOk (err_header ++ joinLines ((run_gather env srcs disk).2.take 15))
      · simp [herr, he, hs]
      · simp [herr, he, hs] at h
  · simp [herr] at h

theorem run_once_eq_main (env : Env) (disk : Option StateJson) (srcs : List Source)
    (hb : pyStrip env.bot_token ≠ "") (hc : pyStrip env.chat_id ≠ "")
    (hg : pyStrip env.giga_credentials ≠ "") (hs : env.sources = some srcs) :
    run_once env disk = run_main env srcs disk := by
  unfold run_once
  rw [if_neg (by simp [hb, hc]), if_neg hg, hs]

theorem run_once_ok_inv (env : Env) (disk : Option StateJson)
    (h : (run_once env disk).result = .ok ()) :
    pyStrip env.bot_token ≠ "" ∧ pyStrip env.chat_id ≠ "" ∧
      pyStrip env.giga_credentials ≠ "" ∧ ∃ srcs, env.sources = some srcs := by
  unfold run_once at h
  by_cases h1 : pyStrip env.bot_token = "" ∨ pyStrip env.chat_id = ""
  · rw [if_pos h1] at h
    simp [emptyOutcome] at h
  · rw [if_neg h1] at h
    by_cases h2 : pyStrip env.giga_credentials = ""
    · rw [if_pos h2] at h
      simp [emptyOutcome] at h
    · rw [if_neg h2] at h
      push_neg at h1
      cases hsrc : env.sources
      · rw [hsrc] at h
        simp [emptyOutcome] at h
      · exact ⟨h1.1, h1.2, h2, _, rfl⟩

theorem new_of_filter (st0 st1 : StateJson) (B : List (String × List Item))
    (hseen : ∀ it, is_seen st1 it = (is_seen st0 it || batch_covers B it))
    (fetch : Source → Except String (List Item)) (src : Source) :
    new_of st1 fetch src = (new_of st0 fetch src).filter (fun it => !batch_covers B it) := by
  unfold new_of
  cases h : fetch src
  · rfl
  · rw [List.filter_filter]
    apply List.filter_congr
    intro it _
    rw [hseen it]
    cases hx : is_seen st0 it <;> cases hy : batch_covers B it <;> rfl

theorem gather_second_run (st0 st1 : StateJson) (B : List (String × List Item))
    (hseen : ∀ it, is_seen st1 it = (is_seen st0 it || batch_covers B it))
    (fetch : Source → Except String (List Item)) (srcs : List Source) :
    (gatherSources st1 fetch srcs).1 =
      (gatherSources st0 fetch srcs).1.filter (fun it => !batch_covers B it) := by
  rw [gatherSources_eq, gatherSources_eq]
  simp only [List.filter_flatMap]
  congr 1
  funext src
  exact new_of_filter st0 st1 B hseen fetch src

theorem run_loop_unfold (env : Env) (srcs : List Source) (disk : Option StateJson) :
    run_loop env srcs disk =
      notifyLoop env.nowStr env.ts env.classify env.sendOk (load_state disk)
        (run_groups env srcs disk) := rfl

theorem second_run_no_batches (env : Env) (disk : Option StateJson) (srcs : List Source)
    (hsrc : env.sources = some srcs)
    (hok : (run_once env disk).result = .ok ())
    (hcap1 : (run_gather env srcs disk).1.length ≤ MAX_TOTAL_ITEMS)
    (hcap2 : groups_within_cap env.classify (run_groups env srcs disk) = true) :
    (run_once env ((run_once env disk).savedState)).notifications = [] := by
  obtain ⟨hb, hc, hg, _⟩ := run_once_ok_inv env disk hok
  have hmain : run_once env disk = run_main env srcs disk :=
    run_once_eq_main env disk srcs hb hc hg hsrc
  rw [hmain] at hok ⊢
  obtain ⟨herr, hsaved⟩ := run_main_ok env srcs disk hok
  rw [hsaved]
  rw [run_once_eq_main env (some (run_loop env srcs disk).st) srcs hb hc hg hsrc]
  rw [run_main_notifications]
  have herr2 :
      (notifyLoop env.nowStr env.ts env.classify env.sendOk (load_state disk)
        (run_groups env srcs disk)).err = none := by
    rw [← run_loop_unfold]; exact herr
  -- seen keys after run 1 are the old keys plus the posted batches' keys
  have hseen : ∀ it, is_seen (run_loop env srcs disk).st it =
      (is_seen (load_state disk) it ||
        batch_covers (run_loop env srcs disk).batches it) := by
    intro it
    rw [run_loop_unfold]
    exact notifyLoop_seen env.nowStr env.ts env.classify env.sendOk
      (run_groups env srcs disk) (load_state disk) herr2 it
  -- the second gather keeps exactly the uncovered items of the first gather
  have htake1 : (run_gather env srcs disk).1.take MAX_TOTAL_ITEMS =
      (run_gather env srcs disk).1 := List.take_of_length_le hcap1
  have hall2 : (run_gather env srcs (some (run_loop env srcs disk).st)).1 =
      (run_gather env srcs disk).1.filter
        (fun it => !batch_covers (run_loop env srcs disk).batches it) := by
    simp only [run_gather, load_state]
    exact gather_second_run (load_state disk) (run_loop env srcs disk).st
      (run_loop env srcs disk).batches hseen env.fetchResult srcs
  have htake2 : (run_gather env srcs (some (run_loop env srcs disk).st)).1.take MAX_TOTAL_ITEMS =
      (run_gather env srcs (some (run_loop env srcs disk).st)).1 := by
    apply List.take_of_length_le
    rw [hall2]
    exact le_trans (List.length_filter_le _ _) hcap1
  -- every group of the second run has an empty relevant list
  have hAllEmpty : ∀ g ∈ run_groups env srcs (some (run_loop env srcs disk).st),
      gigachat_filter g.2 env.classify = .ok [] := by
    intro g hgmem
    apply gigachat_filter_of_rel_empty
    rw [List.eq_nil_iff_forall_not_mem]
    rintro ⟨it, d⟩ hp
    rw [mem_gc_rel] at hp
    obtain ⟨hitg, hcls, hrel⟩ := hp
    rw [run_groups, htake2] at hgmem
    have hit2 : it ∈ (run_gather env srcs (some (run_loop env srcs disk).st)).1 :=
      mem_l_of_mem_by_reg _ g hgmem it hitg
    rw [hall2, List.mem_filter] at hit2
    obtain ⟨hit1, hncov⟩ := hit2
    -- locate the item's group in the first run
    obtain ⟨p1, hp1mem, hp1reg, hitp1⟩ :=
      exists_group_of_mem (run_gather env srcs disk).1 it hit1
    have hp1mem2 : p1 ∈ run_groups env srcs disk := by
      rw [run_groups, htake1]
      exact hp1mem
    obtain ⟨l1, hl1, hdisj⟩ := notifyLoop_groups env.nowStr env.ts env.classify env.sendOk
      (run_groups env srcs disk) (load_state disk) herr2 p1 hp1mem2
    have hmem_l1 : (it, d) ∈ l1 :=
      gigachat_filter_ok_mem p1.2 env.classify l1 hl1 it d hitp1 hcls hrel
    -- the per-regulator cap keeps the whole relevant list
    have hlen : l1.length ≤ MAX_ITEMS_PER_REGULATOR := by
      rw [groups_within_cap, List.all_eq_true] at hcap2
      have h2 := hcap2 p1 hp1mem2
      rw [hl1] at h2
      simpa using h2
    have hfin : (l1.map Prod.fst).take MAX_ITEMS_PER_REGULATOR = l1.map Prod.fst :=
      List.take_of_length_le (by simpa using hlen)
    have hitfin : it ∈ (l1.map Prod.fst).take MAX_ITEMS_PER_REGULATOR := by
      rw [hfin]
      exact List.mem_map_of_mem Prod.fst hmem_l1
    rcases hdisj with hnil | hbatch
    · rw [hnil] at hitfin
      simp at hitfin
    · have hcov : batch_covers (run_loop env srcs disk).batches it = true := by
        rw [batch_covers, List.any_eq_true]
        refine ⟨(p1.1, (l1.map Prod.fst).take MAX_ITEMS_PER_REGULATOR), ?_, ?_⟩
        · rw [run_loop_unfold]
          exact hbatch
        · rw [List.any_eq_true]
          exact ⟨it, hitfin, by simp⟩
      rw [hcov] at hncov
      simp at hncov
  rw [run_loop_unfold]
  rw [notifyLoop_all_empty env.nowStr env.ts env.classify env.sendOk
    (run_groups env srcs (some (run_loop env srcs disk).st))
    (load_state (some (run_loop env srcs disk).st)) hAllEmpty]

theorem run_once_saved_seen (env : Env) (disk : Option StateJson)
    (hok : (run_once env disk).result = .ok ()) (it : Item) :
    ∃ st1, (run_once env disk).savedState = some st1 ∧
      is_seen st1 it =
        (is_seen (load_state disk) it ||
          batch_covers (run_once env disk).notifications it) := by
  obtain ⟨hb, hc, hg, srcs, hsrc⟩ := run_once_ok_inv env disk hok
  have hmain : run_once env disk = run_main env srcs disk :=
    run_once_eq_main env disk srcs hb hc hg hsrc
  rw [hmain] at hok ⊢
  obtain ⟨herr, hsaved⟩ := run_main_ok env srcs disk hok
  have herr2 :
      (notifyLoop env.nowStr env.ts env.classify env.sendOk (load_state disk)
        (run_groups env srcs disk)).err = none := by
    rw [← run_loop_unfold]; exact herr
  refine ⟨_, hsaved, ?_⟩
  rw [run_main_notifications, run_loop_unfold]
  exact notifyLoop_seen env.nowStr env.ts env.classify env.sendOk
    (run_groups env srcs disk) (load_state disk) herr2 it

theorem run_main_saved_none (env : Env) (srcs : List Source) (disk : Option StateJson)
    (e : RunError) (h : (run_main env srcs disk).result = .error e) :
    (run_main env srcs disk).savedState = none := by
  simp only [run_main] at h ⊢
  cases herr : (run_loop env srcs disk).err
  · by_cases he : (run_gather env srcs disk).2.isEmpty
    · simp [herr, he] at h
    · by_cases hs : env.sendOk (err_header ++ joinLines ((run_gather env srcs disk).2.take 15))
      · simp [herr, he, hs] at h
      · simp [herr, he, hs]
  · simp [herr]

/-- C1 (amended): provided the first completed run is not truncated by the
caps — at most `MAX_TOTAL_ITEMS` gathered new items overall, and for every
regulator group a successful classifier pass keeps at most
`MAX_ITEMS_PER_REGULATOR` relevant entries — a second run over the saved
state with identical source contents and identical classifier verdicts posts
zero new-item notifications: every item notified in the first run is marked
seen and filtered out by the dedup check. -/
theorem c1_second_run_silent_under_caps (env : Env) (disk : Option StateJson)
    (hok : (run_once env disk).result = .ok ())
    (hcap1 : (run_gather env (env.sources.getD []) disk).1.length ≤ MAX_TOTAL_ITEMS)
    (hcap2 : groups_within_cap env.classify (run_groups env (env.sources.getD []) disk) = true) :
    (run_once env ((run_once env disk).savedState)).notifications = [] := by
  obtain ⟨hb, hc, hg, srcs, hsrc⟩ := run_once_ok_inv env disk hok
  have hgd : env.sources.getD [] = srcs := by rw [hsrc]; rfl
  rw [hgd] at hcap1 hcap2
  exact second_run_no_batches env disk srcs hsrc hok hcap1 hcap2

/-- C1 (counterexample): two sources of one regulator yield 16 relevant items
with identical content on both runs; the first completed run posts only the
top 15 (per-regulator cap) and marks only those seen, so the second run posts
a new-item notification for the leftover item — not zero. -/
theorem c1_counterexample_cap_overflow :
    (run_once capEnv none).result = .ok () ∧
    (run_once capEnv ((run_once capEnv none).savedState)).notifications =
      [("R", [capItem 16])] := by
  refine ⟨by decide, by decide⟩

/-- C2 (amended): the dedup key is scoped per regulator: for items `A`, `B`
with the same URL and the same regulator, once `A` is posted in a completed
run, `B` is recorded as seen in the saved state — regardless of any title
difference — and is filtered out by the dedup check of every later gather
over that state, so it is never again reported as new. -/
theorem c2_dedup_scoped_key (env : Env) (disk : Option StateJson) (A B : Item)
    (hok : (run_once env disk).result = .ok ())
    (hurl : A.url = B.url) (hreg : A.regulator = B.regulator)
    (hA : ∃ b ∈ (run_once env disk).notifications, A ∈ b.2) :
    ∃ st1, (run_once env disk).savedState = some st1 ∧ is_seen st1 B = true ∧
      ∀ (fetch : Source → Except String (List Item)) (srcs2 : List Source),
        B ∉ (gatherSources st1 fetch srcs2).1 := by
  obtain ⟨st1, hsaved, hseen⟩ := run_once_saved_seen env disk hok B
  have hcov : batch_covers (run_once env disk).notifications B = true := by
    rw [batch_covers, List.any_eq_true]
    obtain ⟨b, hbmem, hAmem⟩ := hA
    exact ⟨b, hbmem, List.any_eq_true.mpr ⟨A, hAmem, by simp [hreg, hurl]⟩⟩
  rw [hcov, Bool.or_true] at hseen
  refine ⟨st1, hsaved, hseen, ?_⟩
  intro fetch srcs2 hmem
  have hns := not_seen_of_mem_gather st1 fetch srcs2 B hmem
  rw [hseen] at hns
  simp at hns

/-- C2 (counterexample): two items with the same URL but different regulators
are both reported as new in one run — the seen set is keyed per regulator, so
"exactly one is ever reported, regardless of the regulator" fails. -/
theorem c2_counterexample_same_url_two_regulators :
    dupA.url = dupB.url ∧ dupA.regulator ≠ dupB.regulator ∧
    (run_once dupEnv none).result = .ok () ∧
    (run_once dupEnv none).notifications = [("R1", [dupA]), ("R2", [dupB])] := by
  refine ⟨rfl, by decide, by decide, by decide⟩

/-- C5 (amended): when no classifier credential is configured (and the chat
credentials are present), `run_once` raises
`RuntimeError("GIGACHAT_CREDENTIALS is missing")` before any fetch, post or
state write: there is no keyword fallback and the run does not proceed. -/
theorem c5_no_fallback_config_error (env : Env) (disk : Option StateJson)
    (hg : pyStrip env.giga_credentials = "")
    (hb : pyStrip env.bot_token ≠ "") (hc : pyStrip env.chat_id ≠ "") :
    run_once env disk = emptyOutcome (.configError "GIGACHAT_CREDENTIALS is missing") := by
  unfold run_once
  rw [if_neg (by simp [hb, hc]), if_pos hg]

/-- C5 (counterexample): with an empty `GIGACHAT_CREDENTIALS` the run aborts
with a configuration error — nothing is classified, posted or saved, so the
keyword-fallback behaviour the claim describes does not exist. -/
theorem c5_counterexample_missing_credential_aborts :
    (run_once noCredEnv none).result =
      .error (.configError "GIGACHAT_CREDENTIALS is missing") ∧
    (run_once noCredEnv none).sentTexts = [] ∧
    (run_once noCredEnv none).savedState = none := by
  refine ⟨by decide, by decide, by decide⟩

/-- C9: in a completed run, an item key is recorded as seen in the saved
state exactly when it was already seen before the run or some successfully
posted notification batch contains an item with the same regulator and URL.
Items dropped by the relevance filter, the `MAX_TOTAL_ITEMS` cap or the
per-regulator cap are in no posted batch, hence stay unmarked and are
re-evaluated by every later run. -/
theorem c9_marked_seen_iff_notified (env : Env) (disk : Option StateJson)
    (hok : (run_once env disk).result = .ok ()) (it : Item) :
    ∃ st1, (run_once env disk).savedState = some st1 ∧
      is_seen st1 it =
        (is_seen (load_state disk) it ||
          batch_covers (run_once env disk).notifications it) :=
  run_once_saved_seen env disk hok it

/-- C10: when a notification post raises (`tg_send` on a non-2xx response),
the exception propagates out of `run_once` and `save_json` is never reached:
the state file is not written, leaving the on-disk seen set exactly as it was
before the run. -/
theorem c10_send_failure_leaves_state_unwritten (env : Env) (disk : Option StateJson)
    (failedText : String)
    (h : (run_once env disk).result = .error (.sendError failedText)) :
    (run_once env disk).savedState = none := by
  unfold run_once at h ⊢
  by_cases h1 : pyStrip env.bot_token = "" ∨ pyStrip env.chat_id = ""
  · rw [if_pos h1]
    rfl
  · rw [if_neg h1] at h ⊢
    by_cases h2 : pyStrip env.giga_credentials = ""
    · rw [if_pos h2]
      rfl
    · rw [if_neg h2] at h ⊢
      cases hsrc : env.sources with
      | none => rfl
      | some srcs =>
        rw [hsrc] at h
        exact run_main_saved_none env srcs disk _ h

/-- C3 (amended): the notifier never splits a message. In a completed run the
posted texts are exactly one `build_message` text per posted batch, in order,
followed by the aggregated error report when one was posted; and the lines of
a rendered message after its five header lines are exactly one `item_line`
per item, in order — the item list is reconstructed with no omissions or
duplicates from that single message, whatever its length. -/
theorem c3_single_message_per_regulator (env : Env) (disk : Option StateJson)
    (hok : (run_once env disk).result = .ok ()) :
    (run_once env disk).sentTexts =
      (run_once env disk).notifications.map (fun b => build_message env.nowStr b.1 b.2)
        ++ ((run_once env disk).errorReport).toList ∧
    ∀ (reg : String) (items : List Item),
      (message_lines env.nowStr reg items).drop 5 =
        items.enum.map (fun p => item_line p.1 p.2) := by
  constructor
  · obtain ⟨hb, hc, hg, srcs, hsrc⟩ := run_once_ok_inv env disk hok
    have hmain := run_once_eq_main env disk srcs hb hc hg hsrc
    rw [hmain] at hok ⊢
    rw [run_main_sent env srcs disk hok, run_main_notifications]
    congr 1
    rw [run_loop_unfold]
    exact notifyLoop_texts env.nowStr env.ts env.classify env.sendOk
      (run_groups env srcs disk) (load_state disk)
  · intro reg items
    rfl

set_option maxRecDepth 10000 in
/-- C3 (counterexample): a regulator whose rendered message is longer than
3900 characters (five items with 800-character titles) is still posted as a
single message equal to the whole `build_message` text: the code contains no
chunking, so "splits into two or more messages, each at most the budget"
fails. -/
theorem c3_counterexample_unsplit_long_message :
    3900 < (build_message "N" "R" bigItems).length ∧
    (run_once bigEnv none).sentTexts = [build_message "N" "R" bigItems] := by
  constructor
  · have hbig : bigTitle.length = 800 := by decide
    have h : build_message "N" "R" bigItems =
        joinLines ["Мониторинг НПА (ИБ)", "Регулятор: " ++ "R", "Дата: " ++ "N",
          "Новые публикации: " ++ toString (5 : Nat), "",
          item_line 0 (bigItem 1), item_line 1 (bigItem 2), item_line 2 (bigItem 3),
          item_line 3 (bigItem 4), item_line 4 (bigItem 5)] := rfl
    rw [h]
    simp only [joinLines, item_line, bigItem]
    simp only [String.length_append, hbig]
    decide
  · rfl

/-- C4 (code bug): a classifier response that is valid JSON with
`relevant: true` but a non-numeric `score` ("high") passes the per-item
`try`/`except` of `gigachat_filter`, and then `int(score)` raises inside the
sort key: the exception propagates out of `gigachat_filter`, aborts
`run_once` and leaves the state file unwritten — instead of the item being
treated as not relevant. -/
theorem c4_malformed_score_aborts_run :
    gigachat_filter [badItem] (fun _ => badScoreResp) = .error () ∧
    (run_once badEnv none).result = .error .filterError ∧
    (run_once badEnv none).savedState = none := by
  refine ⟨by decide, by decide, by decide⟩

/-- C6 (code bug): `robust_fetch_text` catches every exception, so a
non-retryable 404 is attempted four times, with the full backoff sleeps
2, 5 and 10 seconds, and the final error is the generic
`RuntimeError("Failed to fetch {url}")` (the status only survives as the
chained cause) — not an immediate failure with no retries. -/
theorem c6_four_attempts_on_404 :
    robust_fetch_text "http://x" resp404 =
      ⟨.error "Failed to fetch http://x", 4, [2, 5, 10], some (.http 404)⟩ := by
  decide

/-- C7 (amended): on a 429 response the fetcher sleeps per its own fixed
schedule — 2 seconds before the first retry, whatever `Retry-After` value
`n` the response carried — and when the retry succeeds the fetch returns
that body, so the run proceeds normally with that source's items. -/
theorem c7_fixed_backoff_on_429 (url : String) (n : Nat) (body : String) :
    robust_fetch_text url (resp429 n body) = ⟨.ok body, 2, [2], some (.http 429)⟩ := rfl

/-- C7 (counterexample): with `Retry-After: 3` the fetcher sleeps only 2
seconds in total before its successful retry — it does not wait the
at-least-3 seconds the claim requires, because the header is never read. -/
theorem c7_counterexample_retry_after_ignored :
    (robust_fetch_text "http://x" (resp429 3 "BODY")).sleeps.sum < 3 ∧
    (robust_fetch_text "http://x" (resp429 3 "BODY")).result = .ok "BODY" := by
  refine ⟨by decide, by decide⟩

/-- C8: when source `srcX` raises (its fetch fails with the exception
rendered as `e`) and source `srcY` succeeds with a new relevant item, the run
completes: the failure becomes one entry of the collected error list, the
successful source's item is still posted as a notification, and the failed
source appears only in the aggregated error report. -/
theorem c8_partial_failure_isolation (bt cid gc ns ts e : String)
    (srcX srcY : Source) (itY : Item) (sc : Int) (disk : Option StateJson)
    (hb : pyStrip bt ≠ "") (hc : pyStrip cid ≠ "") (hg : pyStrip gc ≠ "")
    (hne : srcY.url ≠ srcX.url)
    (hnav : is_probably_navigation itY.title itY.url = false)
    (hseen : is_seen (load_state disk) itY = false) :
    (run_once (c8_env bt cid gc ns ts e srcX srcY itY sc) disk).result = .ok () ∧
    (run_once (c8_env bt cid gc ns ts e srcX srcY itY sc) disk).notifications =
      [(itY.regulator, [itY])] ∧
    (run_once (c8_env bt cid gc ns ts e srcX srcY itY sc) disk).errors =
      [source_error_entry srcX e] ∧
    (run_once (c8_env bt cid gc ns ts e srcX srcY itY sc) disk).errorReport =
      some (err_header ++ source_error_entry srcX e) := by
  have hsrc2 : (c8_env bt cid gc ns ts e srcX srcY itY sc).sources = some [srcX, srcY] := rfl
  rw [run_once_eq_main _ disk [srcX, srcY] hb hc hg hsrc2]
  have hgather : run_gather (c8_env bt cid gc ns ts e srcX srcY itY sc) [srcX, srcY] disk =
      ([itY], [source_error_entry srcX e]) := by
    simp only [run_gather, gatherSources, List.foldl_cons, List.foldl_nil, gatherStep, c8_env]
    simp [hne, hnav, hseen]
  have hgroups : run_groups (c8_env bt cid gc ns ts e srcX srcY itY sc) [srcX, srcY] disk =
      [(itY.regulator, [itY])] := by
    rw [run_groups, hgather]
    rfl
  have hfilter : gigachat_filter [itY] (fun _ => relevantResp sc) =
      .ok [(itY, { relevant := some (.jbool true), score := some (.jint sc) })] := by
    simp [gigachat_filter, gc_rel, gc_out, relevantResp, attach_keys, pyInt,
      sortDesc, insertDesc]
  have hfin : (([(itY, ({ relevant := some (.jbool true), score := some (.jint sc) } : GCDict))].map
      Prod.fst).take MAX_ITEMS_PER_REGULATOR) = [itY] := rfl
  have hloop : run_loop (c8_env bt cid gc ns ts e srcX srcY itY sc) [srcX, srcY] disk =
      ⟨[itY].foldl (mark_seen ts) (load_state disk),
        [(itY.regulator, [itY])], [build_message ns itY.regulator [itY]], none⟩ := by
    rw [run_loop_unfold, hgroups]
    show notifyLoop ns ts (fun _ => relevantResp sc) (fun _ => true) (load_state disk)
      [(itY.regulator, [itY])] = _
    rw [notifyLoop_cons_send ns ts (fun _ => relevantResp sc) (fun _ => true) (load_state disk)
      itY.regulator [itY] [] _ hfilter (by rw [hfin]; exact List.cons_ne_nil itY []) rfl]
    rw [hfin, notifyLoop_nil]
  refine ⟨?_, ?_, ?_, ?_⟩ <;>
    · simp only [run_main]
      rw [hloop, hgather]
      simp [c8_env, joinLines, err_header]

/-- Witness for C1: a one-item run satisfies the cap hypotheses; its second
run posts nothing. -/
theorem c1_witness :
    (run_once wEnv none).result = .ok () ∧
    (run_once wEnv ((run_once wEnv none).savedState)).notifications = [] :=
  ⟨by decide, c1_second_run_silent_under_caps wEnv none (by decide) (by decide) (by decide)⟩

/-- Witness for C2: after `wItem` is posted, the same-URL same-regulator item
with a different title is seen and excluded from any later gather. -/
theorem c2_witness :
    ∃ st1, (run_once wEnv none).savedState = some st1 ∧ is_seen st1 wItemB = true ∧
      ∀ (fetch : Source → Except String (List Item)) (srcs2 : List Source),
        wItemB ∉ (gatherSources st1 fetch srcs2).1 :=
  c2_dedup_scoped_key wEnv none wItem wItemB (by decide) rfl rfl
    ⟨("A", [wItem]), by decide, by decide⟩

/-- Witness for C3: in the completed one-item run the posted texts are one
message per batch, and the rendered lines after the header are the item lines. -/
theorem c3_witness :
    ((run_once wEnv none).sentTexts =
      (run_once wEnv none).notifications.map (fun b => build_message wEnv.nowStr b.1 b.2)
        ++ ((run_once wEnv none).errorReport).toList) ∧
    (message_lines wEnv.nowStr "A" [wItem]).drop 5 =
      [wItem].enum.map (fun p => item_line p.1 p.2) :=
  ⟨(c3_single_message_per_regulator wEnv none (by decide)).1,
    (c3_single_message_per_regulator wEnv none (by decide)).2 "A" [wItem]⟩

/-- Witness for C5: the concrete no-credential configuration aborts with the
configuration error. -/
theorem c5_witness :
    run_once noCredEnv none = emptyOutcome (.configError "GIGACHAT_CREDENTIALS is missing") :=
  c5_no_fallback_config_error noCredEnv none (by decide) (by decide) (by decide)

/-- Witness for C8: a concrete two-source run where the first source fails
with a rendered exception and the second source's item is still posted. -/
theorem c8_witness :
    (run_once (c8_env "B" "C" "G" "N" "T" "RuntimeError: boom" ⟨"X", "sx"⟩ ⟨"Y", "sy"⟩
        { regulator := "Y", title := "Doc", url := "uy" } 5) none).result = .ok () ∧
    (run_once (c8_env "B" "C" "G" "N" "T" "RuntimeError: boom" ⟨"X", "sx"⟩ ⟨"Y", "sy"⟩
        { regulator := "Y", title := "Doc", url := "uy" } 5) none).notifications =
      [("Y", [{ regulator := "Y", title := "Doc", url := "uy" }])] ∧
    (run_once (c8_env "B" "C" "G" "N" "T" "RuntimeError: boom" ⟨"X", "sx"⟩ ⟨"Y", "sy"⟩
        { regulator := "Y", title := "Doc", url := "uy" } 5) none).errors =
      [source_error_entry ⟨"X", "sx"⟩ "RuntimeError: boom"] ∧
    (run_once (c8_env "B" "C" "G" "N" "T" "RuntimeError: boom" ⟨"X", "sx"⟩ ⟨"Y", "sy"⟩
        { regulator := "Y", title := "Doc", url := "uy" } 5) none).errorReport =
      some (err_header ++ source_error_entry ⟨"X", "sx"⟩ "RuntimeError: boom") :=
  c8_partial_failure_isolation "B" "C" "G" "N" "T" "RuntimeError: boom" ⟨"X", "sx"⟩ ⟨"Y", "sy"⟩
    { regulator := "Y", title := "Doc", url := "uy" } 5 none
    (by decide) (by decide) (by decide) (by decide) (by decide) (by decide)

/-- Witness for C9: in the run where the classifier drops `w9b`, the saved
state records exactly the posted batch's keys, so the dropped item's
seen-flag equals its batch coverage (false). -/
theorem c9_witness :
    (run_once w9Env none).result = .ok () ∧
    (∃ st1, (run_once w9Env none).savedState = some st1 ∧
      is_seen st1 w9b =
        (is_seen (load_state none) w9b ||
          batch_covers (run_once w9Env none).notifications w9b)) :=
  ⟨by decide, c9_marked_seen_iff_notified w9Env none (by decide) w9b⟩

/-- Witness for C10: the second regulator's post fails, the first message was
already delivered, and the state file is not written. -/
theorem c10_witness :
    (run_once wfEnv none).result = .error (.sendError wfMsg2) ∧
    (run_once wfEnv none).sentTexts = [build_message "N" "R1" [wfA]] ∧
    (run_once wfEnv none).savedState = none :=
  ⟨by decide, by decide, c10_send_failure_leaves_state_unwritten wfEnv none wfMsg2 (by decide)⟩

end NpaBot
